import Mathlib

/-!
Verification development for the CoinShift sidechain state core
(`src/lib/parent_chain/{mod,config,client,swap}.rs`, `src/lib/state/mod.rs`).

The Rust code is shallowly embedded: machine integers (`u32`, `u64` sats)
become `Nat` with explicit overflow checks where the source performs checked
arithmetic, byte arrays become `List Nat`, fallible functions return
`Except`, and the LMDB tables of `State` become association lists with
last-write-wins `put` semantics.  The blake3 hash is not reimplemented:
functions that hash take the hash function as an explicit parameter, and the
theorems quantify over it, so what is verified is exactly which bytes are
hashed and in which order.  Rust `String` values are modelled by their
UTF-8 byte lists.
-/

namespace CoinShift

/-- The six supported parent chains (`config.rs`, `enum ParentChainType`). -/
inductive ParentChainType
  | Btc
  | Bch
  | Ltc
  | Xmr
  | Eth
  | Tron
deriving DecidableEq, Repr

/-- Block time estimates in seconds (`mod.rs`, `block_times`; the source
stores `Duration`s, embedded here as their second counts). -/
def block_times (chain : ParentChainType) : Nat :=
  match chain with
  | .Btc => 600
  | .Bch => 600
  | .Ltc => 150
  | .Xmr => 120
  | .Eth => 12
  | .Tron => 3

/-- `DEFAULT_CONFIRMATION_TIME` = 45 minutes, in seconds (`mod.rs`). -/
def DEFAULT_CONFIRMATION_TIME : Nat := 45 * 60

/-- `default_confirmations` (`mod.rs` lines 33-49): blocks needed for the
45-minute target, rounded up with `(target + bt - 1) / bt`. -/
def default_confirmations (chain : ParentChainType) : Nat :=
  let block_seconds := block_times chain
  (DEFAULT_CONFIRMATION_TIME + block_seconds - 1) / block_seconds

/-- Transaction ID, `client.rs`: a 32-byte hash (BTC, BCH, LTC, XMR) or a
variable-length byte string (ETH, Tron).  Bytes are `Nat`s below 256. -/
inductive TxId
  | Hash32 (bytes : List Nat)
  | Hash (bytes : List Nat)
deriving DecidableEq, Repr

/-- `TxIdHash::hash_bytes` (`swap.rs` lines 348-355). -/
def TxId.hash_bytes : TxId → List Nat
  | .Hash32 bytes => bytes
  | .Hash bytes => bytes

/-- A 32-byte L2 address (`crate::types::Address`), as its byte list. -/
structure Address where
  bytes : List Nat
deriving DecidableEq, Repr

/-- Unique identifier for a swap (`swap.rs`, `SwapId(pub [u8; 32])`). -/
structure SwapId where
  bytes : List Nat
deriving DecidableEq, Repr

/-- `swap.rs`, `enum SwapDirection`. -/
inductive SwapDirection
  | L1ToL2
  | L2ToL1
deriving DecidableEq, Repr

/-- `swap.rs`, `enum SwapState`. -/
inductive SwapState
  | Pending
  | WaitingConfirmations (current_confirmations required_confirmations : Nat)
  | ReadyToClaim
  | Completed
  | Cancelled
deriving DecidableEq, Repr

/-- `swap.rs`, `struct Swap`.  Amounts are sat counts; the optional
`l1_recipient_address` string is modelled by its UTF-8 bytes. -/
structure Swap where
  id : SwapId
  direction : SwapDirection
  parent_chain : ParentChainType
  l1_txid : TxId
  required_confirmations : Nat
  state : SwapState
  l2_recipient : Address
  l2_amount : Nat
  l1_recipient_address : Option (List Nat)
  l1_amount : Option Nat
  created_at_height : Nat
  expires_at_height : Option Nat
deriving DecidableEq, Repr

/-- `swap.rs`, `enum SwapError`. -/
inductive SwapError
  | ChainNotConfigured (chain : ParentChainType)
  | ClientError
  | TransactionDisappeared
  | InvalidStateTransition
  | SwapNotFound
  | SwapExpired
deriving DecidableEq, Repr

/-- Little-endian 8-byte encoding of a `u64`
(`l1_amount.to_sat().to_le_bytes()` in `swap.rs` line 137). -/
def u64ToLeBytes (n : Nat) : List Nat :=
  [n % 256, n / 2 ^ 8 % 256, n / 2 ^ 16 % 256, n / 2 ^ 24 % 256,
   n / 2 ^ 32 % 256, n / 2 ^ 40 % 256, n / 2 ^ 48 % 256, n / 2 ^ 56 % 256]

/-- `Swap::new_l1_to_l2` (`swap.rs` lines 81-113).  `blake3` is the hash
function the source applies to the accumulated `id_data` bytes; it is a
parameter of the embedding, so the theorems hold for the real blake3. -/
def Swap.new_l1_to_l2 (blake3 : List Nat → List Nat)
    (parent_chain : ParentChainType) (l1_txid : TxId)
    (required_confirmations : Option Nat) (l2_recipient : Address)
    (l2_amount : Nat) (current_height : Nat) : Swap :=
  let required_confirmations :=
    required_confirmations.getD (default_confirmations parent_chain)
  let id_data := l1_txid.hash_bytes ++ l2_recipient.bytes
  let id := SwapId.mk (blake3 id_data)
  { id := id
    direction := .L1ToL2
    parent_chain := parent_chain
    l1_txid := l1_txid
    required_confirmations := required_confirmations
    state := .Pending
    l2_recipient := l2_recipient
    l2_amount := l2_amount
    l1_recipient_address := none
    l1_amount := none
    created_at_height := current_height
    expires_at_height := none }

/-- `Swap::new_l2_to_l1` (`swap.rs` lines 117-157). -/
def Swap.new_l2_to_l1 (blake3 : List Nat → List Nat)
    (parent_chain : ParentChainType) (l1_recipient_address : List Nat)
    (l1_amount : Nat) (l2_sender : Address) (l2_amount : Nat)
    (l2_recipient : Address) (required_confirmations : Option Nat)
    (current_height : Nat) : Swap :=
  let required_confirmations :=
    required_confirmations.getD (default_confirmations parent_chain)
  let placeholder_txid := TxId.Hash32 (List.replicate 32 0)
  let id_data := l1_recipient_address ++ u64ToLeBytes l1_amount
      ++ l2_sender.bytes ++ l2_recipient.bytes
  let id := SwapId.mk (blake3 id_data)
  { id := id
    direction := .L2ToL1
    parent_chain := parent_chain
    l1_txid := placeholder_txid
    required_confirmations := required_confirmations
    state := .Pending
    l2_recipient := l2_recipient
    l2_amount := l2_amount
    l1_recipient_address := some l1_recipient_address
    l1_amount := some l1_amount
    created_at_height := current_height
    expires_at_height := none }

/-- `Swap::new` (`swap.rs` lines 172-188): delegates to `new_l1_to_l2`. -/
def Swap.new (blake3 : List Nat → List Nat) (parent_chain : ParentChainType)
    (l1_txid : TxId) (required_confirmations : Option Nat)
    (l2_recipient : Address) (l2_amount : Nat) (current_height : Nat) :
    Swap :=
  Swap.new_l1_to_l2 blake3 parent_chain l1_txid required_confirmations
    l2_recipient l2_amount current_height

/-- `Swap::set_l1_txid` (`swap.rs` lines 160-169).  The Rust method mutates
`&mut self` and returns `Result<(), SwapError>`; here it returns the
(possibly updated) swap together with the result. -/
def Swap.set_l1_txid (self : Swap) (l1_txid : TxId) :
    Swap × Except SwapError Unit :=
  if self.direction ≠ .L2ToL1 then
    (self, .error .InvalidStateTransition)
  else if self.state ≠ .Pending then
    (self, .error .InvalidStateTransition)
  else
    ({ self with l1_txid := l1_txid }, .ok ())

/-- Transaction information from a parent chain (`client.rs`,
`struct ParentChainTx`). -/
structure ParentChainTx where
  txid : TxId
  confirmations : Nat
  block_hash : Option (List Nat)
  block_height : Option Nat
deriving Repr

/-- The behaviour of one configured parent-chain client: the outcome of
`get_transaction` for each queried txid (`Err` is a client error such as
`Rpc`/`Network`; `Ok none` means the transaction is unseen).  This stands
in for the network-facing `BtcClient`. -/
structure ClientHandle where
  get_transaction : TxId → Except Unit (Option ParentChainTx)

/-- Per-chain node configuration (`config.rs`,
`struct ParentChainNodeConfig`); the URL and auth data are opaque here. -/
structure ParentChainNodeConfig where
  node_url : List Nat
  confirmation_count : Option Nat
deriving DecidableEq, Repr

/-- `config.rs`, `struct ParentChainConfig`: the chain → node-config map,
with `get_chain` as lookup. -/
structure ParentChainConfig where
  chains : ParentChainType → Option ParentChainNodeConfig

/-- `ParentChainConfig::get_chain`. -/
def ParentChainConfig.get_chain (self : ParentChainConfig)
    (chain : ParentChainType) : Option ParentChainNodeConfig :=
  self.chains chain

/-- `client.rs`, `struct ParentChainClient`: the map from chain type to
constructed client. -/
structure ParentChainClient where
  clients : ParentChainType → Option ClientHandle

/-- `ParentChainClient::new` (`client.rs` lines 53-64): starts from an empty
map and inserts a client only for `Btc`, and only when that chain is
configured.  `mkBtcClient` stands for `BtcClient::new`. -/
def ParentChainClient.new (config : ParentChainConfig)
    (mkBtcClient : ParentChainNodeConfig → ClientHandle) :
    ParentChainClient :=
  { clients := fun chain =>
      match chain with
      | .Btc => (config.get_chain .Btc).map mkBtcClient
      | _ => none }

/-- `ParentChainClient::get_client` (`client.rs` lines 66-67). -/
def ParentChainClient.get_client (self : ParentChainClient)
    (chain : ParentChainType) : Option ClientHandle :=
  self.clients chain

/-- The part of `Swap::update_state` past the expiry check (`swap.rs`
lines 204-252): query the client for the L1 transaction and advance the
state machine. -/
def Swap.update_state_oracle (self : Swap) (client : ParentChainClient) :
    Swap × Except SwapError Unit :=
  match client.get_client self.parent_chain with
  | none => (self, .error (.ChainNotConfigured self.parent_chain))
  | some c =>
    match c.get_transaction self.l1_txid with
    | .error _ => (self, .error .ClientError)
    | .ok none =>
      if self.state = .Pending then
        (self, .ok ())
      else
        (self, .error .TransactionDisappeared)
    | .ok (some tx) =>
      match self.state with
      | .Pending =>
        ({ self with state := (.WaitingConfirmations tx.confirmations
            self.required_confirmations) }, .ok ())
      | .WaitingConfirmations _ _ =>
        if self.required_confirmations ≤ tx.confirmations then
          ({ self with state := .ReadyToClaim }, .ok ())
        else
          ({ self with state := (.WaitingConfirmations tx.confirmations
              self.required_confirmations) }, .ok ())
      | .ReadyToClaim => (self, .ok ())
      | .Completed => (self, .ok ())
      | .Cancelled => (self, .ok ())

/-- `Swap::update_state` (`swap.rs` lines 191-253): the expiry check comes
first (`if current_height >= expires_at` → `Cancelled`, returning `Ok`),
and only then is the oracle consulted. -/
def Swap.update_state (self : Swap) (client : ParentChainClient)
    (current_height : Nat) : Swap × Except SwapError Unit :=
  match self.expires_at_height with
  | some expires_at =>
    if expires_at ≤ current_height then
      ({ self with state := .Cancelled }, .ok ())
    else
      self.update_state_oracle client
  | none => self.update_state_oracle client

/-- `Swap::mark_completed` (`swap.rs` lines 256-264). -/
def Swap.mark_completed (self : Swap) : Swap × Except SwapError Unit :=
  match self.state with
  | .ReadyToClaim => ({ self with state := .Completed }, .ok ())
  | _ => (self, .error .InvalidStateTransition)

/-- A swap state is final when it is `ReadyToClaim`, `Completed` or
`Cancelled`. -/
def SwapState.isFinal : SwapState → Bool
  | .ReadyToClaim => true
  | .Completed => true
  | .Cancelled => true
  | _ => false

/-- Whether the expiry height (if any) has been reached at `h`
(the guard `current_height >= expires_at` of `update_state`). -/
def Swap.pastExpiry (self : Swap) (h : Nat) : Bool :=
  match self.expires_at_height with
  | some expires_at => expires_at ≤ h
  | none => false

/-- A stand-in hash for concrete evaluations (the id bytes do not matter
for these checks, only that the function is fixed). -/
def exHash (l : List Nat) : List Nat := l.take 32

/-- A client manager with no configured chains. -/
def exClientNone : ParentChainClient := ⟨fun _ => none⟩

/-- A configuration that configures every chain. -/
def exConfigAll : ParentChainConfig := ⟨fun _ => some ⟨[], none⟩⟩

/-- A stand-in `BtcClient::new`: the resulting client reports every
transaction as unseen. -/
def exMkBtc (_ : ParentChainNodeConfig) : ClientHandle :=
  ⟨fun _ => .ok none⟩

/-- A concrete `ReadyToClaim` swap that expires at height 5. -/
def exSwapReady : Swap :=
  { id := ⟨List.replicate 32 1⟩
    direction := .L2ToL1
    parent_chain := .Btc
    l1_txid := .Hash32 (List.replicate 32 2)
    required_confirmations := 3
    state := .ReadyToClaim
    l2_recipient := ⟨List.replicate 32 3⟩
    l2_amount := 100000
    l1_recipient_address := some [98, 99]
    l1_amount := some 100000
    created_at_height := 100
    expires_at_height := some 5 }

/-- A concrete pending L2→L1 swap built through the constructor. -/
def exL2Swap : Swap :=
  Swap.new_l2_to_l1 exHash .Btc [98, 99] 100000 ⟨List.replicate 32 1⟩
    100000 ⟨List.replicate 32 2⟩ (some 3) 1000

/-- A concrete ETH swap with no expiry. -/
def exEthSwapNoExpiry : Swap :=
  { exSwapReady with parent_chain := .Eth, expires_at_height := none }

/-- A concrete ETH swap that expired at height 0. -/
def exEthSwapExpired : Swap :=
  { exSwapReady with parent_chain := .Eth, expires_at_height := some 0 }

/-- `crate::types::OutPoint` (spec §3): tagged output identifier. -/
inductive OutPoint
  | Regular (txid : List Nat) (vout : Nat)
  | Deposit (seq : Nat)
  | Coinbase (merkle_root : List Nat) (vout : Nat)
  | Withdrawal (m6id : List Nat) (vout : Nat)
deriving DecidableEq, Repr

/-- `crate::types::InPoint` (spec §3): identifies the consumer of a spent
output. -/
inductive InPoint
  | Regular (txid : List Nat) (vin : Nat)
  | Withdrawal (m6id : List Nat)
deriving DecidableEq, Repr

/-- Modelled from the spec: the kind of a (filled) output
(`FilledOutput.kind` in §3; the `crate::types` module is not under
`src/`).  BitAsset outputs carry the id (name hash) of the asset they
hold, control coins the id they control. -/
inductive OutputKind
  | Value
  | BitAsset (id : Nat)
  | BitAssetControl (id : Nat)
  | Reservation (commitment : Nat)
  | AmmLP
  | Auction
deriving DecidableEq, Repr

/-- Modelled from the spec: an output — address, bitcoin value in sats and
kind (`FilledOutput` of §3; used both for transaction outputs and for the
filled spent outputs, whose observable fields coincide here). -/
structure Output where
  address : Address
  value : Nat
  kind : OutputKind
deriving DecidableEq, Repr

/-- `SpentOutput` (spec §3): a spent output annotated with its consumer. -/
structure SpentOutput where
  output : Output
  inpoint : InPoint
deriving DecidableEq, Repr

/-- `crate::types::TxData` variants, with the fields
`validate_filled_transaction` reads (`state/mod.rs` lines 722, 789). -/
inductive TxData
  | BitAssetReservation
  | BitAssetRegistration (name_hash : Nat) (initial_supply : Nat)
  | BitAssetUpdate
  | AmmMint
  | AmmBurn
  | AmmSwap
  | DutchAuctionCreate
  | DutchAuctionBid
  | DutchAuctionCollect
  | SwapCreate (swap_id : List Nat) (parent_chain : ParentChainType)
      (l1_txid_bytes : List Nat) (l2_amount : Nat) (l2_recipient : Address)
      (l1_recipient_address : Option (List Nat))
  | SwapClaim (swap_id : List Nat)
deriving DecidableEq, Repr

/-- `crate::types::Transaction`: ordered inputs, ordered outputs and the
optional `TxData` (spec §3). -/
structure Transaction where
  inputs : List OutPoint
  outputs : List Output
  data : Option TxData
deriving DecidableEq, Repr

/-- `crate::types::FilledTransaction`: the transaction together with the
outputs its inputs spend, in input order (`state/mod.rs` lines 411-429). -/
structure FilledTransaction where
  spent_utxos : List Output
  transaction : Transaction
deriving DecidableEq, Repr

/-- `Output::bitasset`: the BitAsset id held, when the output is a
BitAsset output. -/
def Output.bitasset (self : Output) : Option Nat :=
  match self.kind with
  | .BitAsset id => some id
  | _ => none

/-- `Output::is_bitasset`. -/
def Output.is_bitasset (self : Output) : Bool :=
  match self.kind with
  | .BitAsset _ => true
  | _ => false

/-- `Output::is_bitasset_control`. -/
def Output.is_bitasset_control (self : Output) : Bool :=
  match self.kind with
  | .BitAssetControl _ => true
  | _ => false

/-- `Output::is_reservation`. -/
def Output.is_reservation (self : Output) : Bool :=
  match self.kind with
  | .Reservation _ => true
  | _ => false

/-- `FilledTransaction::spent_reservations`: the reservation inputs. -/
def FilledTransaction.spent_reservations (tx : FilledTransaction) :
    List Output :=
  tx.spent_utxos.filter (fun o => o.is_reservation)

/-- `FilledTransaction::reservation_outputs`. -/
def FilledTransaction.reservation_outputs (tx : FilledTransaction) :
    List Output :=
  tx.transaction.outputs.filter (fun o => o.is_reservation)

/-- `FilledTransaction::spent_bitassets`: the BitAsset inputs. -/
def FilledTransaction.spent_bitassets (tx : FilledTransaction) :
    List Output :=
  tx.spent_utxos.filter (fun o => o.is_bitasset)

/-- `FilledTransaction::spent_bitasset_controls`. -/
def FilledTransaction.spent_bitasset_controls (tx : FilledTransaction) :
    List Output :=
  tx.spent_utxos.filter (fun o => o.is_bitasset_control)

/-- `FilledTransaction::bitasset_outputs`. -/
def FilledTransaction.bitasset_outputs (tx : FilledTransaction) :
    List Output :=
  tx.transaction.outputs.filter (fun o => o.is_bitasset)

/-- `FilledTransaction::bitasset_control_outputs`. -/
def FilledTransaction.bitasset_control_outputs (tx : FilledTransaction) :
    List Output :=
  tx.transaction.outputs.filter (fun o => o.is_bitasset_control)

/-- Number of unique BitAssets among the inputs: the source computes
`tx.spent_bitassets().filter_map(|(_, o)| o.bitasset()).unique().count()`
(`state/mod.rs` lines 578-582). -/
def FilledTransaction.n_unique_bitasset_inputs (tx : FilledTransaction) :
    Nat :=
  ((tx.spent_bitassets.filterMap (fun o => o.bitasset)).dedup).length

/-- Modelled from the spec: the count the source binds to
`n_unique_bitasset_outputs` is produced by
`tx.unique_spent_bitassets().len()` (`state/mod.rs` lines 586-587), a
`crate::types` helper whose definition is not under `src/`; the spec's
shape table (§4.6) reads this quantity as the number of unique BitAssets
among the outputs, which is what is computed here. -/
def FilledTransaction.n_unique_bitasset_outputs (tx : FilledTransaction) :
    Nat :=
  ((tx.transaction.outputs.filterMap (fun o => o.bitasset)).dedup).length

/-- `is_reservation` on the tx data. -/
def FilledTransaction.is_reservation_tx (tx : FilledTransaction) : Bool :=
  tx.transaction.data = some .BitAssetReservation

/-- `is_registration` on the tx data. -/
def FilledTransaction.is_registration (tx : FilledTransaction) : Bool :=
  match tx.transaction.data with
  | some (.BitAssetRegistration _ _) => true
  | _ => false

/-- `is_update` on the tx data. -/
def FilledTransaction.is_update (tx : FilledTransaction) : Bool :=
  tx.transaction.data = some .BitAssetUpdate

/-- `is_amm_mint` on the tx data. -/
def FilledTransaction.is_amm_mint (tx : FilledTransaction) : Bool :=
  tx.transaction.data = some .AmmMint

/-- `is_amm_burn` on the tx data. -/
def FilledTransaction.is_amm_burn (tx : FilledTransaction) : Bool :=
  tx.transaction.data = some .AmmBurn

/-- `is_amm_swap` on the tx data. -/
def FilledTransaction.is_amm_swap (tx : FilledTransaction) : Bool :=
  tx.transaction.data = some .AmmSwap

/-- `is_dutch_auction_create` on the tx data. -/
def FilledTransaction.is_dutch_auction_create (tx : FilledTransaction) :
    Bool :=
  tx.transaction.data = some .DutchAuctionCreate

/-- `is_dutch_auction_bid` on the tx data. -/
def FilledTransaction.is_dutch_auction_bid (tx : FilledTransaction) :
    Bool :=
  tx.transaction.data = some .DutchAuctionBid

/-- `is_dutch_auction_collect` on the tx data. -/
def FilledTransaction.is_dutch_auction_collect (tx : FilledTransaction) :
    Bool :=
  tx.transaction.data = some .DutchAuctionCollect

/-- The data interpolated into the `Error::InvalidTransaction(String)`
messages of `validate_filled_transaction`; the Rust code formats these
into strings, the embedding keeps them structured.  One constructor per
`format!` site, in source order (`state/mod.rs` lines 726-846). -/
inductive InvalidTxReason
  | swapAlreadyExists (swap_id : SwapId)
  | swapAmountMustBePositive
  | cannotSpendLockedOutput (outpoint : OutPoint) (swap_id : SwapId)
  | spentValueCalculationFailed
  | swapCreateInsufficientValue (required spent : Nat)
  | swapIdMismatch (expected got : List Nat)
  | swapNotFound (swap_id : SwapId)
  | swapNotReadyToClaim (state : SwapState)
  | inputLockedToDifferentSwap (outpoint : OutPoint)
      (locked expected : SwapId)
  | noLockedInput
  | noRecipientOutput
  | cannotSpendLockedOutputUseSwapClaim (outpoint : OutPoint)
      (swap_id : SwapId)
deriving DecidableEq, Repr

/-- The `state::error::Error` variants reachable from the embedded
functions (`state/error.rs` is not under `src/`; the constructors and
their payloads are those required by the uses in `state/mod.rs` and the
spec's §7 taxonomy). -/
inductive Error
  | UnbalancedReservations (n_reservation_inputs n_reservation_outputs : Nat)
  | NoBitAssetsToUpdate
  | InvalidBurn
  | TooFewBitAssetsToMint
  | BidInvalid
  | TooFewBitAssetsToCreate
  | CollectInvalid
  | UnbalancedBitAssetControls
      (n_bitasset_control_inputs n_bitasset_control_outputs : Nat)
  | LastOutputNotControlCoin
  | SecondLastOutputNotBitAsset
  | UnbalancedBitAssets (n_unique_bitasset_inputs n_bitasset_outputs : Nat)
  | BitAssetAlreadyRegistered (name_hash : Nat)
  | InvalidTransaction (reason : InvalidTxReason)
  | NotEnoughValueIn
  | AmountOverflow
deriving DecidableEq, Repr

instance {ε α : Type} [DecidableEq ε] [DecidableEq α] :
    DecidableEq (Except ε α) := fun a b =>
  match a, b with
  | .ok x, .ok y => decidable_of_iff (x = y) (by simp)
  | .error x, .error y => decidable_of_iff (x = y) (by simp)
  | .ok _, .error _ => isFalse (by simp)
  | .error _, .ok _ => isFalse (by simp)

/-- `bitcoin::Amount::checked_add` on 64-bit sat counts. -/
def checkedAdd (a b : Nat) : Option Nat :=
  if a + b < 2 ^ 64 then some (a + b) else none

/-- `bitcoin::Amount::checked_sub` on 64-bit sat counts. -/
def checkedSub (a b : Nat) : Option Nat :=
  if b ≤ a then some (a - b) else none

/-- Checked sum of a list of sat amounts, failing with `AmountOverflow`
as the source's checked additions do. -/
def checkedSum (l : List Nat) : Except Error Nat :=
  l.foldlM
    (fun acc v =>
      match checkedAdd acc v with
      | some s => Except.ok s
      | none => Except.error Error.AmountOverflow)
    0

/-- Modelled from the spec: `FilledTransaction::spent_bitcoin_value`
(`crate::types`, not under `src/`) — the checked sum of the bitcoin
values of the spent outputs. -/
def FilledTransaction.spent_bitcoin_value (tx : FilledTransaction) :
    Except Error Nat :=
  checkedSum (tx.spent_utxos.map (fun o => o.value))

/-- Modelled from the spec: `FilledTransaction::bitcoin_fee`
(`crate::types`, not under `src/`) — §4.7 step 5: fee = Σ input value −
Σ output value, `none` when negative, checked sums otherwise. -/
def FilledTransaction.bitcoin_fee (tx : FilledTransaction) :
    Except Error (Option Nat) := do
  let value_in ← tx.spent_bitcoin_value
  let value_out ← checkedSum (tx.transaction.outputs.map (fun o => o.value))
  pure (if value_out ≤ value_in then some (value_in - value_out) else none)

/-- Association-list read: the value stored at `k`, as LMDB `try_get`. -/
def dbGet {K V : Type} [DecidableEq K] (db : List (K × V)) (k : K) :
    Option V :=
  (db.find? (fun p => decide (p.1 = k))).map (fun p => p.2)

/-- Association-list write with last-write-wins semantics, as LMDB
`put`. -/
def dbPut {K V : Type} [DecidableEq K] (db : List (K × V)) (k : K)
    (v : V) : List (K × V) :=
  (k, v) :: db.filter (fun p => decide (¬ p.1 = k))

/-- The tables of `State` (`state/mod.rs` lines 82-133) touched by the
embedded operations.  `bitassets` holds the registered name hashes
(`try_get_bitasset(..).is_some()`); `utxos` and `stxos` are keyed by
OutPoint (the source's `OutPointKey` is a serialization detail). -/
structure StateDb where
  bitassets : List Nat
  utxos : List (OutPoint × Output)
  stxos : List (OutPoint × SpentOutput)
  swaps : List (SwapId × Swap)
  swaps_by_l1_txid : List ((ParentChainType × TxId) × SwapId)
  swaps_by_recipient : List (Address × List SwapId)
  locked_swap_outputs : List (OutPoint × SwapId)
deriving DecidableEq, Repr

/-- `State::get_swap` (`state/mod.rs` lines 231-237). -/
def StateDb.get_swap (db : StateDb) (swap_id : SwapId) : Option Swap :=
  dbGet db.swaps swap_id

/-- `State::is_output_locked_to_swap`: lookup in `locked_swap_outputs`
(the method body is not under `src/`; its observable contract — used at
`state/mod.rs` lines 744, 810, 842 and witnessed by the tests at lines
1217-1352 — is the table lookup modelled here). -/
def StateDb.is_output_locked_to_swap (db : StateDb)
    (outpoint : OutPoint) : Option SwapId :=
  dbGet db.locked_swap_outputs outpoint

/-- `State::save_swap` (`state/mod.rs` lines 274-297): write the swap by
id, write the `(parent_chain, l1_txid)` lookup, and append the id to the
recipient's list when not already present. -/
def StateDb.save_swap (db : StateDb) (swap : Swap) : StateDb :=
  let db := { db with swaps := dbPut db.swaps swap.id swap }
  let db := { db with
    swaps_by_l1_txid :=
      dbPut db.swaps_by_l1_txid (swap.parent_chain, swap.l1_txid) swap.id }
  let swap_ids := (dbGet db.swaps_by_recipient swap.l2_recipient).getD []
  if swap.id ∈ swap_ids then db
  else
    { db with
      swaps_by_recipient :=
        dbPut db.swaps_by_recipient swap.l2_recipient
          (swap_ids ++ [swap.id]) }

/-- `State::validate_reservations` (`state/mod.rs` lines 494-515). -/
def validate_reservations (tx : FilledTransaction) : Except Error Unit :=
  let n_reservation_inputs := tx.spent_reservations.length
  let n_reservation_outputs := tx.reservation_outputs.length
  if tx.is_reservation_tx then
    if n_reservation_outputs = n_reservation_inputs + 1 then .ok ()
    else .error (.UnbalancedReservations n_reservation_inputs
        n_reservation_outputs)
  else if tx.is_registration then
    if n_reservation_inputs = n_reservation_outputs + 1 then .ok ()
    else .error (.UnbalancedReservations n_reservation_inputs
        n_reservation_outputs)
  else if n_reservation_inputs = n_reservation_outputs then .ok ()
  else .error (.UnbalancedReservations n_reservation_inputs
      n_reservation_outputs)

/-- `State::validate_bitassets` (`state/mod.rs` lines 572-710): the
variant-specific shape checks in source order, then the registration /
generic branch.  Each Rust `if cond { return Err }; ` statement becomes
an else-if link, which is equivalent since every taken branch returns. -/
def validate_bitassets (db : StateDb) (tx : FilledTransaction) :
    Except Error Unit :=
  let n_unique_bitasset_inputs := tx.n_unique_bitasset_inputs
  let n_bitasset_control_inputs := tx.spent_bitasset_controls.length
  let n_bitasset_outputs := tx.bitasset_outputs.length
  let n_unique_bitasset_outputs := tx.n_unique_bitasset_outputs
  let n_bitasset_control_outputs := tx.bitasset_control_outputs.length
  if tx.is_update = true
      ∧ (n_bitasset_control_inputs < 1 ∨ n_bitasset_control_outputs < 1)
  then .error .NoBitAssetsToUpdate
  else if tx.is_amm_burn = true
      ∧ (n_unique_bitasset_outputs < 2
        ∨ n_unique_bitasset_outputs < n_unique_bitasset_inputs
        ∨ n_unique_bitasset_inputs + 2 < n_unique_bitasset_outputs)
  then .error .InvalidBurn
  else if tx.is_amm_mint = true
      ∧ (n_unique_bitasset_inputs < 2
        ∨ n_unique_bitasset_inputs < n_unique_bitasset_outputs
        ∨ n_unique_bitasset_outputs + 2 < n_unique_bitasset_inputs)
  then .error .TooFewBitAssetsToMint
  else if (tx.is_amm_swap = true ∨ tx.is_dutch_auction_bid = true)
      ∧ (n_unique_bitasset_inputs < 1
        ∨ ¬ (n_unique_bitasset_inputs - 1 ≤ n_unique_bitasset_outputs
          ∧ n_unique_bitasset_outputs ≤ n_unique_bitasset_inputs + 1))
  then .error .BidInvalid
  else if tx.is_dutch_auction_create = true
      ∧ (n_unique_bitasset_inputs < 1
        ∨ n_unique_bitasset_inputs < n_unique_bitasset_outputs
        ∨ n_unique_bitasset_outputs + 1 < n_unique_bitasset_inputs)
  then .error .TooFewBitAssetsToCreate
  else if tx.is_dutch_auction_collect = true
      ∧ (n_unique_bitasset_outputs < 1
        ∨ n_unique_bitasset_outputs < n_unique_bitasset_inputs
        ∨ n_unique_bitasset_inputs + 2 < n_unique_bitasset_outputs)
  then .error .CollectInvalid
  else
    match tx.transaction.data with
    | some (.BitAssetRegistration name_hash initial_supply) =>
      if ¬ n_bitasset_control_outputs = n_bitasset_control_inputs + 1 then
        .error (.UnbalancedBitAssetControls n_bitasset_control_inputs
          n_bitasset_control_outputs)
      else if ¬ (tx.transaction.outputs.getLast?.elim false
          (fun o => o.is_bitasset_control)) then
        .error .LastOutputNotControlCoin
      else if initial_supply = 0 then
        if n_bitasset_outputs < n_unique_bitasset_inputs then
          .error (.UnbalancedBitAssets n_unique_bitasset_inputs
            n_bitasset_outputs)
        else if name_hash ∈ db.bitassets then
          .error (.BitAssetAlreadyRegistered name_hash)
        else .ok ()
      else
        if n_bitasset_outputs < n_unique_bitasset_inputs + 1 then
          .error (.UnbalancedBitAssets n_unique_bitasset_inputs
            n_bitasset_outputs)
        else if ¬ ((tx.transaction.outputs.get?
            (tx.transaction.outputs.length - 2)).elim false
            (fun o => o.is_bitasset)) then
          .error .SecondLastOutputNotBitAsset
        else if name_hash ∈ db.bitassets then
          .error (.BitAssetAlreadyRegistered name_hash)
        else .ok ()
    | _ =>
      if ¬ n_bitasset_control_outputs = n_bitasset_control_inputs then
        .error (.UnbalancedBitAssetControls n_bitasset_control_inputs
          n_bitasset_control_outputs)
      else if n_bitasset_outputs < n_unique_bitasset_inputs then
        .error (.UnbalancedBitAssets n_unique_bitasset_inputs
          n_bitasset_outputs)
      else if n_unique_bitasset_inputs = 0 ∧ ¬ n_bitasset_outputs = 0 then
        .error (.UnbalancedBitAssets n_unique_bitasset_inputs
          n_bitasset_outputs)
      else .ok ()

/-- The first transaction input present in `locked_swap_outputs`, with
the locking swap id — the `for input in &tx.transaction.inputs` loops of
`validate_filled_transaction` stop at the first locked input
(`state/mod.rs` lines 743-750 and 841-848). -/
def firstLockedInput (db : StateDb) : List OutPoint →
    Option (OutPoint × SwapId)
  | [] => none
  | i :: rest =>
    match db.is_output_locked_to_swap i with
    | some s => some (i, s)
    | none => firstLockedInput db rest

/-- The input loop of the `SwapClaim` branch (`state/mod.rs` lines
808-820): walk the inputs tracking `has_locked_input`, failing on the
first input locked to a different swap. -/
def scanClaimInputs (db : StateDb) (swap_id : SwapId) :
    List OutPoint → Bool → Except Error Bool
  | [], has_locked_input => .ok has_locked_input
  | i :: rest, has_locked_input =>
    match db.is_output_locked_to_swap i with
    | some locked_swap_id =>
      if locked_swap_id = swap_id then scanClaimInputs db swap_id rest true
      else .error (.InvalidTransaction
        (.inputLockedToDifferentSwap i locked_swap_id swap_id))
    | none => scanClaimInputs db swap_id rest has_locked_input

/-- The coin-locking checks of the `SwapCreate` branch for L2→L1 swaps
(`state/mod.rs` lines 738-763): no input may already be locked, and the
spent bitcoin value must cover `l2_amount`. -/
def swapCreateL2Check (db : StateDb) (tx : FilledTransaction)
    (l2_amount : Nat) : Except Error Unit :=
  match firstLockedInput db tx.transaction.inputs with
  | some (op, locked_sid) =>
    .error (.InvalidTransaction (.cannotSpendLockedOutput op locked_sid))
  | none =>
    match tx.spent_bitcoin_value with
    | .error _ =>
      .error (.InvalidTransaction .spentValueCalculationFailed)
    | .ok spent_value =>
      if spent_value < l2_amount then
        .error (.InvalidTransaction
          (.swapCreateInsufficientValue l2_amount spent_value))
      else .ok ()

/-- The swap-specific block of `validate_filled_transaction`
(`state/mod.rs` lines 721-837): the `SwapCreate` checks, the `SwapClaim`
checks, or nothing for other transaction data.  Each Rust
`return Err(..)` becomes an error arm. -/
def validate_swap_tx (blake3 : List Nat → List Nat) (db : StateDb)
    (tx : FilledTransaction) : Except Error Unit :=
  match tx.transaction.data with
  | some (.SwapCreate swap_id parent_chain l1_txid_bytes l2_amount
      l2_recipient l1_recipient_address) =>
    let sid := SwapId.mk swap_id
    match db.get_swap sid with
    | some _ => .error (.InvalidTransaction (.swapAlreadyExists sid))
    | none =>
      if l2_amount = 0 then
        .error (.InvalidTransaction .swapAmountMustBePositive)
      else
        match (if l1_recipient_address.isSome then
            swapCreateL2Check db tx l2_amount
          else .ok ()) with
        | .error e => .error e
        | .ok () =>
          let l1_txid := if l1_txid_bytes.length = 32 then
              TxId.Hash32 l1_txid_bytes
            else TxId.Hash l1_txid_bytes
          let swap := Swap.new blake3 parent_chain l1_txid none
            l2_recipient l2_amount 0
          if ¬ swap.id.bytes = swap_id then
            .error (.InvalidTransaction
              (.swapIdMismatch swap.id.bytes swap_id))
          else .ok ()
  | some (.SwapClaim swap_id) =>
    let sid := SwapId.mk swap_id
    match db.get_swap sid with
    | none => .error (.InvalidTransaction (.swapNotFound sid))
    | some swap =>
      if ¬ swap.state = .ReadyToClaim then
        .error (.InvalidTransaction (.swapNotReadyToClaim swap.state))
      else
        match scanClaimInputs db sid tx.transaction.inputs false with
        | .error e => .error e
        | .ok has_locked_input =>
          if ¬ has_locked_input then
            .error (.InvalidTransaction .noLockedInput)
          else if ¬ tx.transaction.outputs.any
              (fun o => decide (o.address = swap.l2_recipient)) then
            .error (.InvalidTransaction .noRecipientOutput)
          else .ok ()
  | _ => .ok ()

/-- The locked-outputs gate (`state/mod.rs` lines 839-849): a transaction
whose data is not `SwapClaim` must not consume any locked output. -/
def lockedOutputsGate (db : StateDb) (tx : FilledTransaction) :
    Except Error Unit :=
  match tx.transaction.data with
  | some (.SwapClaim _) => .ok ()
  | _ =>
    match firstLockedInput db tx.transaction.inputs with
    | some (op, sid) =>
      .error (.InvalidTransaction (.cannotSpendLockedOutputUseSwapClaim op
        sid))
    | none => .ok ()

/-- `State::validate_filled_transaction` (`state/mod.rs` lines 713-852):
reservations, bitasset shapes, swap semantics, the locked-outputs gate,
then the fee; each `?` of the source becomes an error arm. -/
def validate_filled_transaction (blake3 : List Nat → List Nat)
    (db : StateDb) (tx : FilledTransaction) : Except Error Nat :=
  match validate_reservations tx with
  | .error e => .error e
  | .ok () =>
    match validate_bitassets db tx with
    | .error e => .error e
    | .ok () =>
      match validate_swap_tx blake3 db tx with
      | .error e => .error e
      | .ok () =>
        match lockedOutputsGate db tx with
        | .error e => .error e
        | .ok () =>
          match tx.bitcoin_fee with
          | .error e => .error e
          | .ok (some fee) => .ok fee
          | .ok none => .error .NotEnoughValueIn

/-- `State::sidechain_wealth` (`state/mod.rs` lines 901-941), exactly as
written: in the STXO loop, the withdrawal accumulator is assigned
`total_deposit_stxo_value.checked_add(value)` — reading the deposit-STXO
accumulator, not itself (line 928). -/
def sidechain_wealth (db : StateDb) : Except Error Nat := do
  let total_deposit_utxo_value ← db.utxos.foldlM
    (fun acc p =>
      match p.1 with
      | .Deposit _ =>
        match checkedAdd acc p.2.value with
        | some v => Except.ok v
        | none => Except.error Error.AmountOverflow
      | _ => Except.ok acc)
    0
  let stxoTotals ← db.stxos.foldlM
    (fun acc p => do
      let td ←
        match p.1 with
        | .Deposit _ =>
          match checkedAdd acc.1 p.2.output.value with
          | some v => Except.ok v
          | none => Except.error Error.AmountOverflow
        | _ => Except.ok acc.1
      let tw ←
        match p.2.inpoint with
        | .Withdrawal _ =>
          match checkedAdd td p.2.output.value with
          | some v => Except.ok v
          | none => Except.error Error.AmountOverflow
        | _ => Except.ok acc.2
      Except.ok (td, tw))
    ((0 : Nat), (0 : Nat))
  let partial_sum ←
    match checkedAdd total_deposit_utxo_value stxoTotals.1 with
    | some v => Except.ok v
    | none => Except.error Error.AmountOverflow
  match checkedSub partial_sum stxoTotals.2 with
  | some v => Except.ok v
  | none => Except.error Error.AmountOverflow

/-- The sidechain-wealth computation as the specification states it
(claim C1 / spec §3 and §8.7): Σ deposit-UTXO values + Σ deposit-STXO
values − Σ values of STXOs whose inpoint is a Withdrawal, every
intermediate sum checked in 64-bit sats.  Kept separate from
`sidechain_wealth` to compare the code against the spec. -/
def sidechain_wealth_formula (db : StateDb) : Except Error Nat := do
  let dep_utxo ← checkedSum ((db.utxos.filter
    (fun p => match p.1 with | .Deposit _ => true | _ => false)).map
    (fun p => p.2.value))
  let dep_stxo ← checkedSum ((db.stxos.filter
    (fun p => match p.1 with | .Deposit _ => true | _ => false)).map
    (fun p => p.2.output.value))
  let withdrawal_stxo ← checkedSum ((db.stxos.filter
    (fun p => match p.2.inpoint with
      | .Withdrawal _ => true
      | _ => false)).map
    (fun p => p.2.output.value))
  let partial_sum ←
    match checkedAdd dep_utxo dep_stxo with
    | some v => Except.ok v
    | none => Except.error Error.AmountOverflow
  match checkedSub partial_sum withdrawal_stxo with
  | some v => Except.ok v
  | none => Except.error Error.AmountOverflow

/-- Invariant: every list stored in the `swaps_by_recipient` table is free
of duplicate swap ids. -/
def swapsByRecipientNodup (db : StateDb) : Prop :=
  ∀ p ∈ db.swaps_by_recipient, (p.2 : List SwapId).Nodup

instance (db : StateDb) : Decidable (swapsByRecipientNodup db) := by
  unfold swapsByRecipientNodup
  infer_instance

/-- The empty state. -/
def exEmptyDb : StateDb :=
  { bitassets := []
    utxos := []
    stxos := []
    swaps := []
    swaps_by_l1_txid := []
    swaps_by_recipient := []
    locked_swap_outputs := [] }

/-- A state with one deposit UTXO worth 100 sats and two 5-sat STXOs
spent by a withdrawal bundle. -/
def exWealthDb : StateDb :=
  { exEmptyDb with
    utxos := [(.Deposit 0, ⟨⟨[]⟩, 100, .Value⟩)]
    stxos := [(.Regular [1] 0, ⟨⟨⟨[]⟩, 5, .Value⟩, .Withdrawal [9]⟩),
              (.Regular [1] 1, ⟨⟨⟨[]⟩, 5, .Value⟩, .Withdrawal [9]⟩)] }

/-- The conditions under which the `SwapClaim` branch of
`validate_filled_transaction` passes (claim C3): the swap exists, it is
`ReadyToClaim`, no input is locked to a different swap, some input is
locked to exactly this swap, and some transaction output pays the swap's
`l2_recipient`. -/
def swapClaimOk (db : StateDb) (tx : FilledTransaction)
    (swap_id_bytes : List Nat) : Prop :=
  ∃ swap, db.get_swap (SwapId.mk swap_id_bytes) = some swap ∧
    swap.state = .ReadyToClaim ∧
    (∀ i ∈ tx.transaction.inputs, ∀ s,
      db.is_output_locked_to_swap i = some s → s = SwapId.mk swap_id_bytes)
    ∧ (∃ i ∈ tx.transaction.inputs,
      db.is_output_locked_to_swap i = some (SwapId.mk swap_id_bytes))
    ∧ (∃ o ∈ tx.transaction.outputs, o.address = swap.l2_recipient)

/-- The AmmMint shape rule of claim C7 / spec §4.6:
`#unique_bitasset_in ≥ 2` and
`#unique_bitasset_out ≤ #unique_bitasset_in ≤ #unique_bitasset_out + 2`. -/
def mintShapeOk (tx : FilledTransaction) : Prop :=
  2 ≤ tx.n_unique_bitasset_inputs ∧
  tx.n_unique_bitasset_outputs ≤ tx.n_unique_bitasset_inputs ∧
  tx.n_unique_bitasset_inputs ≤ tx.n_unique_bitasset_outputs + 2

/-- A concrete locked outpoint. -/
def exLockedOutPoint : OutPoint := .Regular [7] 0

/-- A state whose lock table holds `exLockedOutPoint`. -/
def exLockedDb : StateDb :=
  { exEmptyDb with
    locked_swap_outputs := [(exLockedOutPoint, ⟨List.replicate 32 4⟩)] }

/-- A plain transfer spending the locked outpoint. -/
def exTxSpendingLocked : FilledTransaction :=
  { spent_utxos := [⟨⟨[]⟩, 50, .Value⟩]
    transaction :=
      { inputs := [exLockedOutPoint]
        outputs := []
        data := none } }

/-- A `SwapClaim` transaction for a swap that is not in the state. -/
def exTxClaim : FilledTransaction :=
  { spent_utxos := [⟨⟨[]⟩, 50, .Value⟩]
    transaction :=
      { inputs := [exLockedOutPoint]
        outputs := []
        data := some (.SwapClaim (List.replicate 32 4)) } }

/-- An `AmmMint` transaction with two unique BitAsset inputs and one
BitAsset output. -/
def exTxMint : FilledTransaction :=
  { spent_utxos := [⟨⟨[]⟩, 10, .BitAsset 1⟩, ⟨⟨[]⟩, 10, .BitAsset 2⟩]
    transaction :=
      { inputs := [.Regular [3] 0, .Regular [3] 1]
        outputs := [⟨⟨[]⟩, 10, .BitAsset 1⟩]
        data := some .AmmMint } }

end CoinShift

namespace CoinShift

/-- C8: for every parent chain, `default_confirmations` equals
`ceil(2700 / block_time_seconds)` with the block-time table
{BTC 600, BCH 600, LTC 150, XMR 120, ETH 12, Tron 3}, and consequently
`default_confirmations(chain) * block_time(chain) ≥ 2700` seconds. -/
theorem default_confirmations_ceil_and_target :
    (∀ chain : ParentChainType,
      default_confirmations chain
        = (2700 + block_times chain - 1) / block_times chain
      ∧ 2700 ≤ default_confirmations chain * block_times chain)
    ∧ block_times .Btc = 600 ∧ block_times .Bch = 600
    ∧ block_times .Ltc = 150 ∧ block_times .Xmr = 120
    ∧ block_times .Eth = 12 ∧ block_times .Tron = 3 := by
  refine ⟨fun chain => ?_, rfl, rfl, rfl, rfl, rfl, rfl⟩
  cases chain <;> exact ⟨rfl, by decide⟩

/-- Helper for C4 and C10: whenever the state is not `Pending` or
`WaitingConfirmations` — or in fact for any state — the oracle part of
`update_state` never changes the swap except through the three legal
transitions; in particular for final states the swap is returned
unchanged. -/
theorem update_state_oracle_final_fixed (swap : Swap)
    (client : ParentChainClient) (hfin : swap.state.isFinal = true) :
    (swap.update_state_oracle client).1 = swap := by
  unfold Swap.update_state_oracle
  cases hc : client.get_client swap.parent_chain with
  | none => rfl
  | some c =>
    dsimp only
    cases ht : c.get_transaction swap.l1_txid with
    | error e => rfl
    | ok o =>
      cases o with
      | none =>
        dsimp only
        split <;> rfl
      | some tx =>
        dsimp only
        cases hst : swap.state with
        | Pending => rw [hst] at hfin; simp [SwapState.isFinal] at hfin
        | WaitingConfirmations cc rc =>
          rw [hst] at hfin; simp [SwapState.isFinal] at hfin
        | ReadyToClaim => rfl
        | Completed => rfl
        | Cancelled => rfl

/-- C4 (amended): `ReadyToClaim`, `Completed` and `Cancelled` are absorbing
under `update_state` provided the swap's expiry (if any) has not been
reached at the polling height; the expiry check precedes the final-state
check and cancels any swap, final or not. -/
theorem update_state_final_absorbing_unless_expired (swap : Swap)
    (client : ParentChainClient) (current_height : Nat)
    (hfin : swap.state.isFinal = true)
    (hexp : swap.pastExpiry current_height = false) :
    (swap.update_state client current_height).1 = swap := by
  have hor := update_state_oracle_final_fixed swap client hfin
  unfold Swap.update_state
  cases he : swap.expires_at_height with
  | none => exact hor
  | some e =>
    have hlt : ¬ (e ≤ current_height) := by
      simpa [Swap.pastExpiry, he] using hexp
    simp [hlt, hor]

/-- C4 witness: a concrete final swap, unexpired at the polling height,
is left unchanged by `update_state`. -/
theorem update_state_final_absorbing_unless_expired_witness :
    exSwapReady.state.isFinal = true ∧ exSwapReady.pastExpiry 0 = false ∧
      (exSwapReady.update_state exClientNone 0).1 = exSwapReady :=
  ⟨rfl, rfl,
    update_state_final_absorbing_unless_expired exSwapReady exClientNone 0
      rfl rfl⟩

/-- C4 counterexample: a `ReadyToClaim` swap whose expiry height has been
reached is moved to `Cancelled` by `update_state` (with `Ok` returned), so
the final states are not absorbing as the claim states. -/
theorem update_state_expired_ready_becomes_cancelled :
    exSwapReady.state = .ReadyToClaim ∧
      (exSwapReady.update_state exClientNone 5).1.state = .Cancelled ∧
      (exSwapReady.update_state exClientNone 5).2 = .ok () :=
  ⟨rfl, rfl, rfl⟩

/-- C5 (amended): `set_l1_txid` succeeds, storing the txid, exactly when
the swap's direction is L2→L1 and its state is `Pending` — regardless of
whether the txid was set before — and any call on an L1→L2 swap or on a
swap whose state is no longer `Pending` fails with
`InvalidStateTransition`, leaving the swap unchanged. -/
theorem set_l1_txid_succeeds_iff_l2tol1_pending (swap : Swap) (t : TxId) :
    (swap.direction = .L2ToL1 → swap.state = .Pending →
      swap.set_l1_txid t = ({ swap with l1_txid := t }, .ok ())) ∧
    (swap.direction ≠ .L2ToL1 ∨ swap.state ≠ .Pending →
      swap.set_l1_txid t = (swap, .error .InvalidStateTransition)) := by
  constructor
  · intro hd hs
    simp [Swap.set_l1_txid, hd, hs]
  · intro hcases
    rcases hcases with hd | hs
    · simp [Swap.set_l1_txid, hd]
    · unfold Swap.set_l1_txid
      split
      · rfl
      · simp [hs]

/-- C5 witness: a first call on a concrete pending L2→L1 swap succeeds and
stores the txid; a call on the same swap once its state has left `Pending`
fails with `InvalidStateTransition` and leaves it unchanged. -/
theorem set_l1_txid_succeeds_iff_l2tol1_pending_witness :
    (exL2Swap.direction = .L2ToL1 ∧ exL2Swap.state = .Pending ∧
      exL2Swap.set_l1_txid (.Hash32 (List.replicate 32 66))
        = ({ exL2Swap with l1_txid := .Hash32 (List.replicate 32 66) },
            .ok ())) ∧
    (exSwapReady.state ≠ .Pending ∧
      exSwapReady.set_l1_txid (.Hash32 (List.replicate 32 66))
        = (exSwapReady, .error .InvalidStateTransition)) :=
  ⟨⟨rfl, rfl,
    (set_l1_txid_succeeds_iff_l2tol1_pending exL2Swap
      (.Hash32 (List.replicate 32 66))).1 rfl rfl⟩,
   ⟨by decide,
    (set_l1_txid_succeeds_iff_l2tol1_pending exSwapReady
      (.Hash32 (List.replicate 32 66))).2 (Or.inr (by decide))⟩⟩

/-- C5 counterexample: a second `set_l1_txid` on the same swap, while the
swap is still `Pending`, succeeds — the code only checks direction and
state, so the call is not permitted "exactly once". -/
theorem set_l1_txid_second_call_succeeds :
    (exL2Swap.set_l1_txid (.Hash32 (List.replicate 32 66))).2 = .ok () ∧
      ((exL2Swap.set_l1_txid (.Hash32 (List.replicate 32 66))).1.set_l1_txid
        (.Hash32 (List.replicate 32 67))).2 = .ok () :=
  ⟨rfl, rfl⟩

/-- C6: the `SwapId` assigned by the constructors is the hash of the
concatenated swap-forming fields — `blake3(l1_txid_bytes ‖ l2_recipient)`
for L1→L2 and `blake3(l1_recipient_address ‖ l1_amount_LE64 ‖ l2_sender ‖
l2_recipient)` for L2→L1 — and two constructions with equal such fields
yield equal ids, whatever the remaining parameters. -/
theorem swap_id_deterministic_blake3 (blake3 : List Nat → List Nat) :
    (∀ (pc : ParentChainType) (txid : TxId) (rc : Option Nat)
        (recip : Address) (amt h : Nat),
      (Swap.new_l1_to_l2 blake3 pc txid rc recip amt h).id
        = SwapId.mk (blake3 (txid.hash_bytes ++ recip.bytes))) ∧
    (∀ (pc : ParentChainType) (addr : List Nat) (l1amt : Nat)
        (sender : Address) (l2amt : Nat) (recip : Address)
        (rc : Option Nat) (h : Nat),
      (Swap.new_l2_to_l1 blake3 pc addr l1amt sender l2amt recip rc h).id
        = SwapId.mk (blake3 (addr ++ u64ToLeBytes l1amt ++ sender.bytes
            ++ recip.bytes))) ∧
    (∀ (pc pc' : ParentChainType) (txid : TxId) (rc rc' : Option Nat)
        (recip : Address) (amt amt' h h' : Nat),
      (Swap.new_l1_to_l2 blake3 pc txid rc recip amt h).id
        = (Swap.new_l1_to_l2 blake3 pc' txid rc' recip amt' h').id) ∧
    (∀ (pc pc' : ParentChainType) (addr : List Nat) (l1amt : Nat)
        (sender : Address) (l2amt l2amt' : Nat) (recip : Address)
        (rc rc' : Option Nat) (h h' : Nat),
      (Swap.new_l2_to_l1 blake3 pc addr l1amt sender l2amt recip rc h).id
        = (Swap.new_l2_to_l1 blake3 pc' addr l1amt sender l2amt' recip rc'
            h').id) :=
  ⟨fun _ _ _ _ _ _ => rfl, fun _ _ _ _ _ _ _ _ => rfl,
   fun _ _ _ _ _ _ _ _ _ _ => rfl, fun _ _ _ _ _ _ _ _ _ _ _ _ => rfl⟩

/-- C10 (amended): `ParentChainClient::new` constructs a client only for
BTC — `get_client` returns `None` for every other chain under every
configuration — and `update_state` on a swap for any of those chains fails
with `ChainNotConfigured`, leaving the swap unchanged, whenever the swap's
expiry has not been reached (an expired swap is cancelled with `Ok` before
the client is consulted). -/
theorem get_client_non_btc_none (config : ParentChainConfig)
    (mkBtcClient : ParentChainNodeConfig → ClientHandle)
    (chain : ParentChainType) (hne : chain ≠ .Btc) :
    (ParentChainClient.new config mkBtcClient).get_client chain = none ∧
    ∀ (swap : Swap) (current_height : Nat), swap.parent_chain = chain →
      swap.pastExpiry current_height = false →
      swap.update_state (ParentChainClient.new config mkBtcClient)
          current_height
        = (swap, .error (.ChainNotConfigured chain)) := by
  have hnone :
      (ParentChainClient.new config mkBtcClient).get_client chain = none := by
    cases chain with
    | Btc => exact absurd rfl hne
    | Bch => rfl
    | Ltc => rfl
    | Xmr => rfl
    | Eth => rfl
    | Tron => rfl
  refine ⟨hnone, fun swap current_height hpc hexp => ?_⟩
  have hor : swap.update_state_oracle
      (ParentChainClient.new config mkBtcClient)
      = (swap, .error (.ChainNotConfigured chain)) := by
    unfold Swap.update_state_oracle
    rw [hpc, hnone]
  unfold Swap.update_state
  cases he : swap.expires_at_height with
  | none => exact hor
  | some e =>
    have hlt : ¬ (e ≤ current_height) := by
      simpa [Swap.pastExpiry, he] using hexp
    simp [hlt, hor]

/-- C10 witness: with every chain configured, `get_client` still returns
`None` for ETH, and `update_state` on a concrete unexpired ETH swap fails
with `ChainNotConfigured`. -/
theorem get_client_non_btc_none_witness :
    (ParentChainType.Eth ≠ ParentChainType.Btc) ∧
    ((ParentChainClient.new exConfigAll exMkBtc).get_client .Eth = none ∧
      exEthSwapNoExpiry.update_state
          (ParentChainClient.new exConfigAll exMkBtc) 0
        = (exEthSwapNoExpiry, .error (.ChainNotConfigured .Eth))) := by
  have h := get_client_non_btc_none exConfigAll exMkBtc .Eth (by decide)
  exact ⟨by decide, h.1, h.2 exEthSwapNoExpiry 0 rfl rfl⟩

/-- C10 counterexample: an expired ETH swap is cancelled with `Ok` before
the client is consulted, so `update_state` on a non-BTC chain does not
always fail with `ChainNotConfigured`. -/
theorem update_state_eth_expired_returns_ok :
    exEthSwapExpired.parent_chain = .Eth ∧
      (exEthSwapExpired.update_state
        (ParentChainClient.new exConfigAll exMkBtc) 0).2 = .ok () :=
  ⟨rfl, rfl⟩

/-- Re-putting a key overwrites the earlier put: last write wins. -/
theorem dbPut_dbPut_same {K V : Type} [DecidableEq K] (db : List (K × V))
    (k : K) (v v' : V) : dbPut (dbPut db k v') k v = dbPut db k v := by
  simp [dbPut, List.filter_filter]

/-- Reading the key just written returns the written value. -/
theorem dbGet_dbPut_same {K V : Type} [DecidableEq K] (db : List (K × V))
    (k : K) (v : V) : dbGet (dbPut db k v) k = some v := by
  simp [dbGet, dbPut, List.find?_cons]

/-- A successful read exhibits a stored entry. -/
theorem dbGet_mem {K V : Type} [DecidableEq K] {db : List (K × V)}
    {k : K} {v : V} (h : dbGet db k = some v) : (k, v) ∈ db := by
  unfold dbGet at h
  cases hf : db.find? (fun p => decide (p.1 = k)) with
  | none => rw [hf] at h; cases h
  | some q =>
    rw [hf] at h
    have hq : q ∈ db := List.mem_of_find?_eq_some hf
    have hpred := List.find?_some hf
    cases q with
    | mk a b =>
      simp at hpred h
      rw [← hpred, ← h]
      exact hq

/-- C9: `save_swap` is idempotent — saving the same swap twice yields the
same state as saving it once — and it preserves the invariant that no
recipient's swap-id list contains duplicates, since the id is appended
only when absent. -/
theorem save_swap_idempotent (db : StateDb) (swap : Swap) :
    (db.save_swap swap).save_swap swap = db.save_swap swap ∧
    (swapsByRecipientNodup db →
      swapsByRecipientNodup (db.save_swap swap)) := by
  constructor
  · by_cases hmem :
        swap.id ∈ (dbGet db.swaps_by_recipient swap.l2_recipient).getD []
    · simp [StateDb.save_swap, hmem, dbPut_dbPut_same]
    · simp [StateDb.save_swap, hmem, dbPut_dbPut_same, dbGet_dbPut_same]
  · intro hnd
    by_cases hmem :
        swap.id ∈ (dbGet db.swaps_by_recipient swap.l2_recipient).getD []
    · intro p hp
      simp only [StateDb.save_swap, hmem, if_pos] at hp
      exact hnd p hp
    · intro p hp
      simp only [StateDb.save_swap, hmem, if_neg, not_false_iff] at hp
      simp only [dbPut, List.mem_cons, List.mem_filter] at hp
      rcases hp with hp | hp
      · subst hp
        have hnodup :
            ((dbGet db.swaps_by_recipient swap.l2_recipient).getD
              []).Nodup := by
          cases hget : dbGet db.swaps_by_recipient swap.l2_recipient with
          | none => simp
          | some l =>
            have hm := dbGet_mem hget
            simpa using hnd _ hm
        refine List.Nodup.append hnodup (List.nodup_singleton _) ?_
        intro a ha hb
        rw [List.mem_singleton] at hb
        subst hb
        exact hmem ha
      · exact hnd p hp.1

/-- C9 witness: saving a concrete swap twice into the empty state equals
saving it once, and the duplicate-free invariant is preserved. -/
theorem save_swap_idempotent_witness :
    swapsByRecipientNodup exEmptyDb ∧
    ((exEmptyDb.save_swap exL2Swap).save_swap exL2Swap
        = exEmptyDb.save_swap exL2Swap ∧
      swapsByRecipientNodup (exEmptyDb.save_swap exL2Swap)) :=
  ⟨by decide, (save_swap_idempotent exEmptyDb exL2Swap).1,
    (save_swap_idempotent exEmptyDb exL2Swap).2 (by decide)⟩

/-- C1: evaluating `sidechain_wealth` at a state with one 100-sat deposit
UTXO and two 5-sat withdrawal STXOs returns 95, while the specification's
formula gives 100 + 0 − (5 + 5) = 90: the code assigns the withdrawal
accumulator from `total_deposit_stxo_value` (`state/mod.rs` line 928)
instead of accumulating it, so all but the last withdrawal STXO are
dropped from the subtraction. -/
theorem sidechain_wealth_miscounts_withdrawals :
    sidechain_wealth exWealthDb = .ok 95 ∧
      sidechain_wealth_formula exWealthDb = .ok 90 ∧
      sidechain_wealth exWealthDb ≠ sidechain_wealth_formula exWealthDb :=
  ⟨by decide, by decide, by decide⟩

/-- The input scan finds no locked input exactly when none is locked. -/
theorem firstLockedInput_none_iff (db : StateDb) (l : List OutPoint) :
    firstLockedInput db l = none ↔
      ∀ i ∈ l, db.is_output_locked_to_swap i = none := by
  induction l with
  | nil => simp [firstLockedInput]
  | cons i rest ih =>
    unfold firstLockedInput
    cases hi : db.is_output_locked_to_swap i with
    | some s => simp [hi]
    | none => simp [hi, ih]

/-- What a found locked input means: it is among the scanned inputs and
the lock table maps it to the returned swap id. -/
theorem firstLockedInput_some_spec (db : StateDb) (l : List OutPoint)
    (op : OutPoint) (sid : SwapId)
    (h : firstLockedInput db l = some (op, sid)) :
    op ∈ l ∧ db.is_output_locked_to_swap op = some sid := by
  induction l with
  | nil => cases h
  | cons i rest ih =>
    unfold firstLockedInput at h
    cases hi : db.is_output_locked_to_swap i with
    | some s =>
      rw [hi] at h
      injection h with h
      injection h with h1 h2
      subst h1
      subst h2
      exact ⟨List.mem_cons_self _ _, hi⟩
    | none =>
      rw [hi] at h
      have hrest := ih h
      exact ⟨List.mem_cons_of_mem _ hrest.1, hrest.2⟩

/-- If some input is locked, the scan finds a locked input. -/
theorem firstLockedInput_isSome (db : StateDb) (l : List OutPoint)
    (h : ∃ i ∈ l, db.is_output_locked_to_swap i ≠ none) :
    ∃ op sid, firstLockedInput db l = some (op, sid) := by
  cases hf : firstLockedInput db l with
  | some p => exact ⟨p.1, p.2, by simp [hf]⟩
  | none =>
    obtain ⟨i, hi, hne⟩ := h
    exact absurd ((firstLockedInput_none_iff db l).mp hf i hi) hne

/-- A validated transaction passed every stage: the reservation check,
the bitasset shape check, the swap block, and the locked-outputs gate. -/
theorem validate_ok_components (blake3 : List Nat → List Nat)
    (db : StateDb) (tx : FilledTransaction) (fee : Nat)
    (h : validate_filled_transaction blake3 db tx = .ok fee) :
    validate_reservations tx = .ok () ∧ validate_bitassets db tx = .ok ()
    ∧ validate_swap_tx blake3 db tx = .ok ()
    ∧ lockedOutputsGate db tx = .ok () := by
  unfold validate_filled_transaction at h
  cases hr : validate_reservations tx with
  | error e => rw [hr] at h; cases h
  | ok u =>
    cases u
    rw [hr] at h
    cases hb : validate_bitassets db tx with
    | error e => rw [hb] at h; cases h
    | ok u =>
      cases u
      rw [hb] at h
      cases hs : validate_swap_tx blake3 db tx with
      | error e => rw [hs] at h; cases h
      | ok u =>
        cases u
        rw [hs] at h
        cases hg : lockedOutputsGate db tx with
        | error e => rw [hg] at h; cases h
        | ok u =>
          cases u
          exact ⟨rfl, rfl, rfl, rfl⟩

/-- The gate reduced on a non-`SwapClaim` transaction: it scans the
inputs for a locked one. -/
theorem lockedOutputsGate_non_swapclaim (db : StateDb)
    (tx : FilledTransaction)
    (hnc : ∀ b, tx.transaction.data ≠ some (.SwapClaim b)) :
    lockedOutputsGate db tx =
      (match firstLockedInput db tx.transaction.inputs with
        | some (op, sid) => Except.error (.InvalidTransaction
            (.cannotSpendLockedOutputUseSwapClaim op sid))
        | none => Except.ok ()) := by
  unfold lockedOutputsGate
  cases hd : tx.transaction.data with
  | none => rfl
  | some d =>
    cases d with
    | SwapClaim b => exact absurd hd (hnc b)
    | BitAssetReservation => rfl
    | BitAssetRegistration name_hash initial_supply => rfl
    | BitAssetUpdate => rfl
    | AmmMint => rfl
    | AmmBurn => rfl
    | AmmSwap => rfl
    | DutchAuctionCreate => rfl
    | DutchAuctionBid => rfl
    | DutchAuctionCollect => rfl
    | SwapCreate a b c d e f => rfl

/-- C2: a filled transaction whose data is not `SwapClaim` and that
consumes any output present in `locked_swap_outputs` is rejected —
`validate_filled_transaction` never returns a fee for it, and the
locked-outputs gate produces the `InvalidTransaction` error carrying the
first locked OutPoint and its locking SwapId; a transaction consuming no
locked output passes this gate. -/
theorem locked_gate_rejects_non_swapclaim (blake3 : List Nat → List Nat)
    (db : StateDb) (tx : FilledTransaction)
    (hnc : ∀ b, tx.transaction.data ≠ some (.SwapClaim b)) :
    ((∃ i ∈ tx.transaction.inputs,
        db.is_output_locked_to_swap i ≠ none) →
      (∃ op sid, op ∈ tx.transaction.inputs ∧
        db.is_output_locked_to_swap op = some sid ∧
        lockedOutputsGate db tx = .error (.InvalidTransaction
          (.cannotSpendLockedOutputUseSwapClaim op sid))) ∧
      ∀ fee, validate_filled_transaction blake3 db tx ≠ .ok fee) ∧
    ((∀ i ∈ tx.transaction.inputs,
        db.is_output_locked_to_swap i = none) →
      lockedOutputsGate db tx = .ok ()) := by
  have hgate := lockedOutputsGate_non_swapclaim db tx hnc
  constructor
  · intro hex
    obtain ⟨op, sid, hf⟩ :=
      firstLockedInput_isSome db tx.transaction.inputs hex
    have hspec :=
      firstLockedInput_some_spec db tx.transaction.inputs op sid hf
    have hgerr : lockedOutputsGate db tx = .error (.InvalidTransaction
        (.cannotSpendLockedOutputUseSwapClaim op sid)) := by
      rw [hgate, hf]
    refine ⟨⟨op, sid, hspec.1, hspec.2, hgerr⟩, fun fee hok => ?_⟩
    have hcomp := validate_ok_components blake3 db tx fee hok
    rw [hgerr] at hcomp
    cases hcomp.2.2.2
  · intro hall
    rw [hgate, (firstLockedInput_none_iff db tx.transaction.inputs).mpr
      hall]

/-- C2 witness: a concrete plain transfer spending a locked outpoint is
rejected with the gate error carrying that outpoint and the locking swap
id. -/
theorem locked_gate_rejects_non_swapclaim_witness :
    (∀ b, exTxSpendingLocked.transaction.data
      ≠ some (.SwapClaim b)) ∧
    (∃ i ∈ exTxSpendingLocked.transaction.inputs,
      exLockedDb.is_output_locked_to_swap i ≠ none) ∧
    ((∃ op sid, op ∈ exTxSpendingLocked.transaction.inputs ∧
        exLockedDb.is_output_locked_to_swap op = some sid ∧
        lockedOutputsGate exLockedDb exTxSpendingLocked
          = .error (.InvalidTransaction
            (.cannotSpendLockedOutputUseSwapClaim op sid))) ∧
      ∀ fee, validate_filled_transaction exHash exLockedDb
        exTxSpendingLocked ≠ .ok fee) := by
  have hnc : ∀ b, exTxSpendingLocked.transaction.data
      ≠ some (.SwapClaim b) := fun b hb => by cases hb
  have hex : ∃ i ∈ exTxSpendingLocked.transaction.inputs,
      exLockedDb.is_output_locked_to_swap i ≠ none := by decide
  exact ⟨hnc, hex,
    (locked_gate_rejects_non_swapclaim exHash exLockedDb
      exTxSpendingLocked hnc).1 hex⟩

/-- What a successful `SwapClaim` input scan means: no input is locked to
a different swap, and the returned flag records whether some input (or
the accumulator) was locked to this swap. -/
theorem scanClaimInputs_ok_spec (db : StateDb) (sid : SwapId)
    (l : List OutPoint) (acc b : Bool)
    (h : scanClaimInputs db sid l acc = .ok b) :
    (∀ i ∈ l, ∀ s, db.is_output_locked_to_swap i = some s → s = sid) ∧
    (b = true ↔ (acc = true ∨
      ∃ i ∈ l, db.is_output_locked_to_swap i = some sid)) := by
  induction l generalizing acc with
  | nil =>
    unfold scanClaimInputs at h
    injection h with h
    subst h
    simp
  | cons i rest ih =>
    unfold scanClaimInputs at h
    cases hi : db.is_output_locked_to_swap i with
    | some s =>
      rw [hi] at h
      dsimp only at h
      by_cases hss : s = sid
      · rw [if_pos hss] at h
        obtain ⟨hall, hb⟩ := ih true h
        subst hss
        constructor
        · intro j hj s' hs'
          rcases List.mem_cons.mp hj with hj | hj
          · subst hj
            rw [hi] at hs'
            injection hs' with hs'
            exact hs'.symm
          · exact hall j hj s' hs'
        · have hbtrue : b = true := hb.mpr (Or.inl rfl)
          exact ⟨fun _ => Or.inr ⟨i, List.mem_cons_self _ _, hi⟩,
            fun _ => hbtrue⟩
      · rw [if_neg hss] at h
        cases h
    | none =>
      rw [hi] at h
      dsimp only at h
      obtain ⟨hall, hb⟩ := ih acc h
      constructor
      · intro j hj s' hs'
        rcases List.mem_cons.mp hj with hj | hj
        · subst hj
          rw [hi] at hs'
          cases hs'
        · exact hall j hj s' hs'
      · rw [hb]
        constructor
        · rintro (hacc | ⟨j, hj, hjs⟩)
          · exact Or.inl hacc
          · exact Or.inr ⟨j, List.mem_cons_of_mem _ hj, hjs⟩
        · rintro (hacc | ⟨j, hj, hjs⟩)
          · exact Or.inl hacc
          · rcases List.mem_cons.mp hj with hj | hj
            · subst hj
              rw [hi] at hjs
              cases hjs
            · exact Or.inr ⟨j, hj, hjs⟩

/-- A `SwapClaim` transaction that passes the swap block satisfies all
claim conditions. -/
theorem validate_swap_tx_claim_conditions (blake3 : List Nat → List Nat)
    (db : StateDb) (tx : FilledTransaction) (b : List Nat)
    (hd : tx.transaction.data = some (.SwapClaim b))
    (h : validate_swap_tx blake3 db tx = .ok ()) :
    swapClaimOk db tx b := by
  unfold validate_swap_tx at h
  rw [hd] at h
  dsimp only at h
  cases hg : db.get_swap (SwapId.mk b) with
  | none => rw [hg] at h; cases h
  | some swap =>
    rw [hg] at h
    dsimp only at h
    by_cases hst : swap.state = .ReadyToClaim
    · rw [if_neg (not_not_intro hst)] at h
      cases hs : scanClaimInputs db (SwapId.mk b) tx.transaction.inputs
          false with
      | error e => rw [hs] at h; cases h
      | ok has =>
        rw [hs] at h
        dsimp only at h
        obtain ⟨hall, hb⟩ := scanClaimInputs_ok_spec db (SwapId.mk b)
          tx.transaction.inputs false has hs
        by_cases hhas : has = true
        · rw [if_neg (not_not_intro hhas)] at h
          by_cases hout : tx.transaction.outputs.any
              (fun o => decide (o.address = swap.l2_recipient)) = true
          · rcases hb.mp hhas with hfalse | hex
            · cases hfalse
            · refine ⟨swap, hg, hst, hall, hex, ?_⟩
              obtain ⟨o, ho, hoaddr⟩ := List.any_eq_true.mp hout
              exact ⟨o, ho, of_decide_eq_true hoaddr⟩
          · rw [if_pos hout] at h
            cases h
        · rw [if_pos hhas] at h
          cases h
    · rw [if_pos hst] at h
      cases h

/-- C3: `validate_filled_transaction` on a `SwapClaim` transaction
succeeds only if the swap exists, is `ReadyToClaim`, no input is locked
to a different swap, some input is locked to exactly this swap, and some
output pays the swap's recipient; when any of these fails, validation
returns an error. -/
theorem validate_swap_claim_requires (blake3 : List Nat → List Nat)
    (db : StateDb) (tx : FilledTransaction) (b : List Nat)
    (hd : tx.transaction.data = some (.SwapClaim b)) :
    (∀ fee, validate_filled_transaction blake3 db tx = .ok fee →
      swapClaimOk db tx b) ∧
    (¬ swapClaimOk db tx b →
      ∃ e, validate_filled_transaction blake3 db tx = .error e) := by
  constructor
  · intro fee hok
    exact validate_swap_tx_claim_conditions blake3 db tx b hd
      (validate_ok_components blake3 db tx fee hok).2.2.1
  · intro hn
    cases hv : validate_filled_transaction blake3 db tx with
    | error e => exact ⟨e, rfl⟩
    | ok fee =>
      exact absurd (validate_swap_tx_claim_conditions blake3 db tx b hd
        (validate_ok_components blake3 db tx fee hv).2.2.1) hn

/-- C3 witness: a concrete `SwapClaim` transaction, instantiating the
theorem; here the swap is absent, so validation errors. -/
theorem validate_swap_claim_requires_witness :
    (exTxClaim.transaction.data
      = some (.SwapClaim (List.replicate 32 4))) ∧
    ((∀ fee, validate_filled_transaction exHash exEmptyDb exTxClaim
        = .ok fee → swapClaimOk exEmptyDb exTxClaim
          (List.replicate 32 4)) ∧
      (¬ swapClaimOk exEmptyDb exTxClaim (List.replicate 32 4) →
        ∃ e, validate_filled_transaction exHash exEmptyDb exTxClaim
          = .error e)) :=
  ⟨rfl, validate_swap_claim_requires exHash exEmptyDb exTxClaim
    (List.replicate 32 4) rfl⟩

/-- C7: `validate_bitassets` on an `AmmMint` transaction accepts only if
`#unique_bitasset_in ≥ 2` and `#unique_bitasset_out ≤ #unique_bitasset_in
≤ #unique_bitasset_out + 2`; when the shape rule fails, it rejects with
`TooFewBitAssetsToMint`. -/
theorem validate_bitassets_amm_mint (db : StateDb)
    (tx : FilledTransaction)
    (hd : tx.transaction.data = some .AmmMint) :
    (validate_bitassets db tx = .ok () → mintShapeOk tx) ∧
    (¬ mintShapeOk tx →
      validate_bitassets db tx = .error .TooFewBitAssetsToMint) := by
  have hupd : tx.is_update = false := by
    simp [FilledTransaction.is_update, hd]
  have hburn : tx.is_amm_burn = false := by
    simp [FilledTransaction.is_amm_burn, hd]
  have hmint : tx.is_amm_mint = true := by
    simp [FilledTransaction.is_amm_mint, hd]
  by_cases hc : tx.n_unique_bitasset_inputs < 2
      ∨ tx.n_unique_bitasset_inputs < tx.n_unique_bitasset_outputs
      ∨ tx.n_unique_bitasset_outputs + 2 < tx.n_unique_bitasset_inputs
  · have herr : validate_bitassets db tx
        = .error .TooFewBitAssetsToMint := by
      unfold validate_bitassets
      simp [hupd, hburn, hmint, hc]
    constructor
    · intro hok
      rw [herr] at hok
      cases hok
    · intro _
      exact herr
  · constructor
    · intro _
      unfold mintShapeOk
      push_neg at hc
      omega
    · intro hshape
      exfalso
      apply hshape
      unfold mintShapeOk
      push_neg at hc
      omega

/-- C7 witness: a concrete `AmmMint` transaction with two unique BitAsset
inputs and one BitAsset output, instantiating the theorem. -/
theorem validate_bitassets_amm_mint_witness :
    (exTxMint.transaction.data = some .AmmMint) ∧
    ((validate_bitassets exEmptyDb exTxMint = .ok ()
        → mintShapeOk exTxMint) ∧
      (¬ mintShapeOk exTxMint →
        validate_bitassets exEmptyDb exTxMint
          = .error .TooFewBitAssetsToMint)) :=
  ⟨rfl, validate_bitassets_amm_mint exEmptyDb exTxMint rfl⟩

end CoinShift
